import Mathlib

/-!
Verification development for the LOVE_APP client (static/app.js) and its
service worker (static/sw.js): a shallow embedding of the session state,
the page controller, the two API request builders, the question-loading
sequence, the click handlers, and the cache-first fetch handler.
-/

namespace LoveApp

/-- Characters stripped by JavaScript `String.prototype.trim`: the
ECMAScript WhiteSpace set (tab, LF, VT, FF, CR, space, NBSP, ZWNBSP and
every Space_Separator code point) together with the LineTerminator set
(LF, CR, LS, PS). -/
def isJsWhitespace (c : Char) : Bool :=
  c = ' ' || c = '\t' || c = '\n' || c = '\r' || c = '\x0b' || c = '\x0c' ||
  c = '\u00A0' || c = '\u1680' ||
  c = '\u2000' || c = '\u2001' || c = '\u2002' || c = '\u2003' ||
  c = '\u2004' || c = '\u2005' || c = '\u2006' || c = '\u2007' ||
  c = '\u2008' || c = '\u2009' || c = '\u200A' ||
  c = '\u2028' || c = '\u2029' || c = '\u202F' || c = '\u205F' ||
  c = '\u3000' || c = '\uFEFF'

/-- Trimming a character list on both ends, as JS `trim` does. -/
def jsTrimList (l : List Char) : List Char :=
  ((l.dropWhile isJsWhitespace).reverse.dropWhile isJsWhitespace).reverse

/-- Embedding of `value.trim()` from app.js line 65. -/
def jsTrim (s : String) : String := ⟨jsTrimList s.data⟩

/-- The keys of the `pages` object (app.js lines 1-6). -/
def pageKeys : List String := ["home", "rules", "level", "question"]

/-- The set of page keys carrying the CSS class `active` after
`pages[key].classList.add("active")` ran: exactly the requested key,
every other page having had the class removed first. -/
def setActive (key : String) : List String := [key]

/-- Embedding of `showPage` (app.js lines 8-11): remove `active`
everywhere, then `pages[key].classList.add("active")`.  Looking up a key
absent from `pages` yields `undefined` and the `classList` access throws;
that thrown lookup error is modelled as `none`. -/
def showPage (key : String) (_active : List String) : Option (List String) :=
  if key ∈ pageKeys then some (setActive key) else none

/-- The mutable client state: the `state` object of app.js lines 13-18,
the text-input value, and the DOM text targets the handlers write. -/
structure ClientState where
  session_id : Option String
  relationship : String
  level : String
  history : List String
  active : List String
  relationshipInput : String
  relationshipLabel : String
  badgeLevel : String
  questionText : String
  deriving DecidableEq, Repr

/-- The state right after the script runs: `state` initialised as in
app.js lines 13-18 and `showPage("home")` executed (line 104). -/
def initState : ClientState :=
  { session_id := none
    relationship := ""
    level := "A"
    history := []
    active := setActive "home"
    relationshipInput := ""
    relationshipLabel := ""
    badgeLevel := ""
    questionText := "" }

/-- The request built by `apiStart` (app.js lines 25-33). -/
structure StartRequest where
  method : String
  url : String
  relationship : String
  deriving DecidableEq, Repr

/-- A successful response of the question API: the fields
`loadNextQuestion` reads (`level` and `question`). -/
structure QuestionResp where
  level : String
  question : String
  deriving DecidableEq, Repr

/-- The request built by `apiQuestion` (app.js lines 35-48): a POST to
`/api/question` whose JSON body has the four fields below. -/
structure QuestionRequest where
  method : String
  url : String
  session_id : Option String
  level : String
  action : Option String
  history : List String
  deriving DecidableEq, Repr

/-- The body assembled by `apiQuestion` from the current state and its
two arguments (app.js lines 39-44). -/
def apiQuestionRequest (s : ClientState) (level : String)
    (action : Option String) : QuestionRequest :=
  { method := "POST"
    url := "/api/question"
    session_id := s.session_id
    level := level
    action := action
    history := s.history }

/-- Embedding of `loadNextQuestion` (app.js lines 50-60).  The outcome of
the awaited `apiQuestion` call is passed in as `res`: `.error` models the
throw on a non-2xx status, in which case the lines after the `await`
(including the `history.push`) never run.  Returns the resulting state
and the request that was issued. -/
def loadNextQuestion (s : ClientState) (action : Option String)
    (res : Except Unit QuestionResp) : ClientState × QuestionRequest :=
  let s1 := { s with badgeLevel := "LEVEL " ++ s.level,
                     questionText := "（載入中…）" }
  let req := apiQuestionRequest s1 s1.level action
  match res with
  | .error _ => (s1, req)
  | .ok data =>
      ({ s1 with badgeLevel := "LEVEL " ++ data.level,
                 questionText := data.question,
                 history := s1.history ++ [data.question] }, req)

/-- The request built by `apiStart` for a given relationship value. -/
def startRequest (relationship : String) : StartRequest :=
  { method := "POST", url := "/api/start", relationship := relationship }

/-- Embedding of the `btn-start` click handler (app.js lines 64-73):
trim the input, store it (falling back to "朋友" when the trim is empty,
the JS `rel || "朋友"`), call `apiStart` with the stored value; on
success store the session id, update the label and show the rules page;
on failure the throw propagates and the remaining lines never run. -/
def clickStartHandler (s : ClientState) (res : Except Unit String) :
    ClientState × StartRequest :=
  let rel := jsTrim s.relationshipInput
  let stored := if rel = "" then "朋友" else rel
  let s1 := { s with relationship := stored }
  match res with
  | .error _ => (s1, startRequest stored)
  | .ok sid =>
      ({ s1 with session_id := some sid,
                 relationshipLabel := stored,
                 active := setActive "rules" }, startRequest stored)

deriving instance DecidableEq for Except

/-- One user-triggered handler invocation; API outcomes are carried by
the event so a run is deterministic. -/
inductive Event
  | clickStart (input : String) (res : Except Unit String)
  | clickBackHome
  | clickToLevel
  | clickWheel (lvl : String) (res : Except Unit QuestionResp)
  | clickBackRules
  | clickToLevel2
  | clickSkip (res : Except Unit QuestionResp)
  | clickDone (res : Except Unit QuestionResp)
  deriving DecidableEq, Repr

/-- Modelled from the spec: the page each bound button sits on (the HTML
layout is not under src/; spec section 6 lists the DOM surface and
section 4.1 the flow).  A handler can fire only while its page is the
active one. -/
def handlerPage : Event → String
  | .clickStart _ _ => "home"
  | .clickBackHome => "rules"
  | .clickToLevel => "rules"
  | .clickWheel _ _ => "level"
  | .clickBackRules => "level"
  | .clickToLevel2 => "question"
  | .clickSkip _ => "question"
  | .clickDone _ => "question"

/-- Whether the event is a click on `btn-start`. -/
def Event.isStart : Event → Bool
  | .clickStart _ _ => true
  | _ => false

/-- Whether the handler calls `loadNextQuestion` (wheel buttons, Skip,
Done: app.js lines 83-100). -/
def triggersQuestion : Event → Bool
  | .clickWheel _ _ => true
  | .clickSkip _ => true
  | .clickDone _ => true
  | _ => false

/-- The `action` argument each handler passes to `loadNextQuestion`:
the wheel handler passes none (default), Skip passes "skip", Done passes
"done" (app.js lines 87, 96, 99). -/
def eventAction : Event → Option String
  | .clickSkip _ => some "skip"
  | .clickDone _ => some "done"
  | _ => none

/-- The level in force when the question request of the event is built:
the wheel handler first assigns `state.level = btn.dataset.level`. -/
def eventLevel (s : ClientState) : Event → String
  | .clickWheel lvl _ => lvl
  | _ => s.level

/-- One step of the client: the guarded handler bodies of `bindEvents`
(app.js lines 62-101).  If the event's page is not active the handler
cannot fire and the state is unchanged.  Returns the new state together
with the question API requests issued during the step. -/
def step (s : ClientState) (e : Event) : ClientState × List QuestionRequest :=
  if handlerPage e ∈ s.active then
    match e with
    | .clickStart input res =>
        ((clickStartHandler { s with relationshipInput := input } res).1, [])
    | .clickBackHome => ({ s with active := setActive "home" }, [])
    | .clickToLevel =>
        ({ s with relationshipLabel := s.relationship,
                  active := setActive "level" }, [])
    | .clickWheel lvl res =>
        let s1 := { s with level := lvl, active := setActive "question" }
        let r := loadNextQuestion s1 none res
        (r.1, [r.2])
    | .clickBackRules => ({ s with active := setActive "rules" }, [])
    | .clickToLevel2 => ({ s with active := setActive "level" }, [])
    | .clickSkip res =>
        let r := loadNextQuestion s (some "skip") res
        (r.1, [r.2])
    | .clickDone res =>
        let r := loadNextQuestion s (some "done") res
        (r.1, [r.2])
  else (s, [])

/-- Running a sequence of events from a state, collecting every question
API request issued along the way. -/
def run : ClientState → List Event → ClientState × List QuestionRequest
  | s, [] => (s, [])
  | s, e :: es =>
      let r := step s e
      let rest := run r.1 es
      (rest.1, r.2 ++ rest.2)

/-- A response held in the service-worker cache or returned by the
network; only its identity matters to the fetch handler. -/
structure Response where
  body : String
  deriving DecidableEq, Repr

/-- Embedding of `caches.match` over a cache modelled as an association
list from request URL to stored response. -/
def cacheMatch (cache : List (String × Response)) (url : String) :
    Option Response :=
  (cache.find? (fun p => p.1 == url)).map (fun p => p.2)

/-- Embedding of the service worker's fetch listener (sw.js lines 14-18):
`caches.match(event.request).then(cached => cached || fetch(event.request))`.
`net` models the live network fetch.  Returns the response served and the
cache contents after handling (the listener performs no `cache.put`). -/
def handleFetch (cache : List (String × Response)) (net : String → Response)
    (url : String) : Response × List (String × Response) :=
  (match cacheMatch cache url with
   | some cached => cached
   | none => net url, cache)

/-! Helper lemmas about the embedded operations. -/

lemma jsTrim_eq_empty_of_all_ws (s : String)
    (h : ∀ c ∈ s.data, isJsWhitespace c = true) : jsTrim s = "" := by
  have h1 : s.data.dropWhile isJsWhitespace = [] :=
    List.dropWhile_eq_nil_iff.mpr h
  simp [jsTrim, jsTrimList, h1]

lemma mem_dropWhile_of_mem {p : Char → Bool} {l : List Char} {c : Char}
    (hc : c ∈ l) (hw : p c = false) : c ∈ l.dropWhile p := by
  induction l with
  | nil => cases hc
  | cons a t ih =>
      by_cases ha : p a
      · rw [List.dropWhile_cons_of_pos ha]
        rcases List.mem_cons.mp hc with h | h
        · subst h; rw [hw] at ha; cases ha
        · exact ih h
      · rw [List.dropWhile_cons_of_neg ha]
        exact hc

lemma jsTrim_ne_empty (s : String)
    (h : ¬ ∀ c ∈ s.data, isJsWhitespace c = true) : jsTrim s ≠ "" := by
  push_neg at h
  obtain ⟨c, hc, hw⟩ := h
  have hw2 : isJsWhitespace c = false := by
    cases hv : isJsWhitespace c
    · rfl
    · exact absurd hv hw
  have h1 : c ∈ s.data.dropWhile isJsWhitespace := mem_dropWhile_of_mem hc hw2
  have h2 : c ∈ (s.data.dropWhile isJsWhitespace).reverse :=
    List.mem_reverse.mpr h1
  have h3 : c ∈ (s.data.dropWhile isJsWhitespace).reverse.dropWhile isJsWhitespace :=
    mem_dropWhile_of_mem h2 hw2
  intro hcontra
  have hnil : jsTrimList s.data = [] := congrArg String.data hcontra
  rw [jsTrimList, List.reverse_eq_nil_iff] at hnil
  rw [hnil] at h3
  cases h3

lemma clickStartHandler_fst_relationship (s : ClientState)
    (res : Except Unit String) :
    (clickStartHandler s res).1.relationship =
      (if jsTrim s.relationshipInput = "" then "朋友"
       else jsTrim s.relationshipInput) := by
  cases res <;> rfl

lemma clickStartHandler_snd_relationship (s : ClientState)
    (res : Except Unit String) :
    (clickStartHandler s res).2.relationship =
      (clickStartHandler s res).1.relationship := by
  cases res <;> rfl

lemma loadNextQuestion_snd (s : ClientState) (action : Option String)
    (res : Except Unit QuestionResp) :
    (loadNextQuestion s action res).2 =
      apiQuestionRequest s s.level action := by
  cases res <;> rfl

lemma loadNextQuestion_fst_session (s : ClientState) (action : Option String)
    (res : Except Unit QuestionResp) :
    (loadNextQuestion s action res).1.session_id = s.session_id := by
  cases res <;> rfl

lemma loadNextQuestion_fst_relationship (s : ClientState)
    (action : Option String) (res : Except Unit QuestionResp) :
    (loadNextQuestion s action res).1.relationship = s.relationship := by
  cases res <;> rfl

lemma step_snd_eq (s : ClientState) (e : Event) :
    (step s e).2 =
      if handlerPage e ∈ s.active ∧ triggersQuestion e = true then
        [{ method := "POST", url := "/api/question",
           session_id := s.session_id, level := eventLevel s e,
           action := eventAction e, history := s.history }] else [] := by
  cases e <;>
    simp only [step, handlerPage, triggersQuestion, eventAction, eventLevel,
      loadNextQuestion_snd, apiQuestionRequest] <;>
    split <;> simp_all

/-- The session id of a state, once set, stays set across any step. -/
lemma session_isSome_step (s : ClientState) (e : Event)
    (h : s.session_id.isSome = true) :
    ((step s e).1.session_id).isSome = true := by
  cases e with
  | clickStart input res =>
      simp only [step]
      split
      · cases res with
        | error => exact h
        | ok sid => simp [clickStartHandler]
      · exact h
  | clickWheel lvl res =>
      simp only [step]
      split
      · simpa [loadNextQuestion_fst_session] using h
      · exact h
  | clickSkip res =>
      simp only [step]
      split
      · simpa [loadNextQuestion_fst_session] using h
      · exact h
  | clickDone res =>
      simp only [step]
      split
      · simpa [loadNextQuestion_fst_session] using h
      · exact h
  | clickBackHome => simp only [step]; split <;> exact h
  | clickToLevel => simp only [step]; split <;> exact h
  | clickBackRules => simp only [step]; split <;> exact h
  | clickToLevel2 => simp only [step]; split <;> exact h

/-- Invariant carried through every run: either the client is still on
the home page, or a start call has already succeeded. -/
def SessionInv (s : ClientState) : Prop :=
  s.active = setActive "home" ∨ s.session_id.isSome = true

lemma triggersQuestion_handlerPage {e : Event}
    (h : triggersQuestion e = true) : handlerPage e ≠ "home" := by
  cases e <;> simp [triggersQuestion, handlerPage] at h ⊢

lemma sessionInv_step (s : ClientState) (e : Event)
    (h : SessionInv s) : SessionInv (step s e).1 := by
  rcases h with h | h
  · cases e with
    | clickStart input res =>
        simp only [step]
        split
        · cases res with
          | error => left; simp [clickStartHandler, h]
          | ok sid => right; simp [clickStartHandler]
        · exact Or.inl h
    | clickBackHome =>
        simp only [step]
        split
        · rename_i hg
          rw [h] at hg
          simp [handlerPage, setActive] at hg
        · exact Or.inl h
    | clickToLevel =>
        simp only [step]
        split
        · rename_i hg
          rw [h] at hg
          simp [handlerPage, setActive] at hg
        · exact Or.inl h
    | clickWheel lvl res =>
        simp only [step]
        split
        · rename_i hg
          rw [h] at hg
          simp [handlerPage, setActive] at hg
        · exact Or.inl h
    | clickBackRules =>
        simp only [step]
        split
        · rename_i hg
          rw [h] at hg
          simp [handlerPage, setActive] at hg
        · exact Or.inl h
    | clickToLevel2 =>
        simp only [step]
        split
        · rename_i hg
          rw [h] at hg
          simp [handlerPage, setActive] at hg
        · exact Or.inl h
    | clickSkip res =>
        simp only [step]
        split
        · rename_i hg
          rw [h] at hg
          simp [handlerPage, setActive] at hg
        · exact Or.inl h
    | clickDone res =>
        simp only [step]
        split
        · rename_i hg
          rw [h] at hg
          simp [handlerPage, setActive] at hg
        · exact Or.inl h
  · exact Or.inr (session_isSome_step s e h)

lemma run_cons (s : ClientState) (e : Event) (es : List Event) :
    run s (e :: es) =
      ((run (step s e).1 es).1, (step s e).2 ++ (run (step s e).1 es).2) := rfl

lemma run_requests_isSome (evs : List Event) :
    ∀ s, SessionInv s →
      ∀ req ∈ (run s evs).2, req.session_id.isSome = true := by
  induction evs with
  | nil =>
      intro s _ req hreq
      simp [run] at hreq
  | cons e es ih =>
      intro s hs req hreq
      rw [run_cons] at hreq
      rcases List.mem_append.mp hreq with hreq | hreq
      · rw [step_snd_eq] at hreq
        split at hreq
        · rename_i hc
          simp at hreq
          subst hreq
          rcases hs with h | h
          · exfalso
            have := hc.1
            rw [h] at this
            simp [setActive] at this
            exact triggersQuestion_handlerPage hc.2 this
          · exact h
        · cases hreq
      · exact ih (step s e).1 (sessionInv_step s e hs) req hreq

/-! Claim theorems. -/

/-- C1: for every successful call of `loadNextQuestion` (the question API
resolves with a response containing a question string), the session
history after the call has length exactly one greater than before the
call, and its last element equals the question text returned by that
call. -/
theorem load_success_appends_question (s : ClientState)
    (action : Option String) (data : QuestionResp) :
    ((loadNextQuestion s action (.ok data)).1.history).length
        = s.history.length + 1 ∧
    ((loadNextQuestion s action (.ok data)).1.history).getLast?
        = some data.question := by
  constructor
  · simp [loadNextQuestion]
  · simp [loadNextQuestion]

/-- C2: for every relationship input string, the start handler stores the
fallback label "朋友" when the input is empty or consists only of
whitespace, and the whitespace-trimmed input otherwise; the start API is
called with exactly that stored value. -/
theorem start_relationship_trim_fallback (s : ClientState)
    (res : Except Unit String) :
    ((∀ c ∈ s.relationshipInput.data, isJsWhitespace c = true) →
        (clickStartHandler s res).1.relationship = "朋友") ∧
    ((¬ ∀ c ∈ s.relationshipInput.data, isJsWhitespace c = true) →
        (clickStartHandler s res).1.relationship
          = jsTrim s.relationshipInput) ∧
    (clickStartHandler s res).2.relationship
        = (clickStartHandler s res).1.relationship := by
  refine ⟨?_, ?_, clickStartHandler_snd_relationship s res⟩
  · intro h
    rw [clickStartHandler_fst_relationship,
      if_pos (jsTrim_eq_empty_of_all_ws _ h)]
  · intro h
    rw [clickStartHandler_fst_relationship, if_neg (jsTrim_ne_empty _ h)]

/-- C2 witness: an all-whitespace input stores the fallback, an input
with surrounding whitespace stores its trimmed form. -/
theorem start_relationship_trim_fallback_witness :
    (clickStartHandler { initState with relationshipInput := "   " }
        (.ok "s1")).1.relationship = "朋友" ∧
    (clickStartHandler { initState with relationshipInput := " 哥哥 " }
        (.ok "s1")).1.relationship = jsTrim " 哥哥 " :=
  ⟨(start_relationship_trim_fallback _ _).1 (by decide),
   (start_relationship_trim_fallback _ _).2.1 (by decide)⟩

/-- C3: when the start API call fails (non-2xx status makes it throw),
the session identifier is unchanged and no page transition occurs. -/
theorem start_failure_no_session_no_nav (s : ClientState) :
    (clickStartHandler s (.error ())).1.session_id = s.session_id ∧
    (clickStartHandler s (.error ())).1.active = s.active :=
  ⟨rfl, rfl⟩

/-- C4: for each of the four known page keys, `showPage` with that key
leaves exactly that page active and the other three inactive, regardless
of the previously active pages. -/
theorem showPage_exactly_one_active (key : String) (h : key ∈ pageKeys)
    (act : List String) :
    ∃ a, showPage key act = some a ∧ key ∈ a ∧
      ∀ k ∈ pageKeys, k ≠ key → k ∉ a := by
  refine ⟨setActive key, ?_, ?_, ?_⟩
  · simp [showPage, h]
  · simp [setActive]
  · intro k _ hk
    simp [setActive, hk]

/-- C4 witness: showing the rules page from a state where home was
active. -/
theorem showPage_exactly_one_active_witness :
    ∃ a, showPage "rules" ["home"] = some a ∧ "rules" ∈ a ∧
      ∀ k ∈ pageKeys, k ≠ "rules" → k ∉ a :=
  showPage_exactly_one_active "rules" (by decide) ["home"]

/-- C5: every question API request is a POST to /api/question whose body
is exactly the session id, the level in force, the action tag of the
triggering handler (none for a wheel-button load, "skip" for Skip,
"done" for Done), and the full accumulated history of the session. -/
theorem question_request_shape (s : ClientState) (e : Event)
    (req : QuestionRequest) (h : req ∈ (step s e).2) :
    req.method = "POST" ∧ req.url = "/api/question" ∧
    req.session_id = s.session_id ∧ req.history = s.history ∧
    req.level = eventLevel s e ∧ req.action = eventAction e ∧
    triggersQuestion e = true := by
  rw [step_snd_eq] at h
  split at h
  · rename_i hc
    simp at h
    subst h
    exact ⟨rfl, rfl, rfl, rfl, rfl, rfl, hc.2⟩
  · cases h

/-- C5 witness: the request issued by a Skip click carries the session id
of the state it was issued from. -/
theorem question_request_shape_witness :
    ({ method := "POST", url := "/api/question", session_id := some "s1",
       level := "A", action := some "skip", history := ["Q1"] }
      : QuestionRequest).session_id =
    ({ initState with
        active := setActive "question",
        session_id := some "s1",
        history := ["Q1"] } : ClientState).session_id :=
  (question_request_shape _ (.clickSkip (.ok ⟨"A", "Q2"⟩)) _
    (by decide)).2.2.1

/-- C6: in every state reachable from the initial state (home active,
session id null) by UI-flow-permitted handler invocations, the session id
is non-null whenever a question API request is issued. -/
theorem reachable_question_requests_have_session (evs : List Event)
    (req : QuestionRequest) (h : req ∈ (run initState evs).2) :
    req.session_id.isSome = true :=
  run_requests_isSome evs initState (Or.inl rfl) req h

/-- C6 witness: the first question request of a successful start, level
pick, wheel click run carries the session id issued at start. -/
theorem reachable_question_requests_have_session_witness :
    ({ method := "POST", url := "/api/question", session_id := some "s1",
       level := "B", action := none, history := [] }
      : QuestionRequest).session_id.isSome = true :=
  reachable_question_requests_have_session
    [.clickStart "x" (.ok "s1"), .clickToLevel,
     .clickWheel "B" (.ok ⟨"B", "Q1"⟩)] _ (by decide)

/-- C7 counterexample: after a successful start (session "s1" issued,
relationship "媽媽" stored), the permitted sequence back-home then
start-again overwrites the stored relationship with "爸爸", even though
the second start call fails. -/
theorem relationship_immutable_counterexample :
    (run initState [.clickStart "媽媽" (.ok "s1")]).1.session_id
        = some "s1" ∧
    (run initState [.clickStart "媽媽" (.ok "s1")]).1.relationship
        = "媽媽" ∧
    (run initState [.clickStart "媽媽" (.ok "s1"), .clickBackHome,
        .clickStart "爸爸" (.error ())]).1.relationship = "爸爸" := by
  decide

/-- C7 amended: no handler other than the start handler ever changes the
stored relationship field; the start handler itself stays reachable
(rules to home via the back button) and reassigns the field on every
invocation, even when its API call fails. -/
theorem non_start_steps_preserve_relationship (s : ClientState) (e : Event)
    (h : e.isStart = false) :
    (step s e).1.relationship = s.relationship := by
  cases e with
  | clickStart input res => simp [Event.isStart] at h
  | clickBackHome => simp only [step]; split <;> rfl
  | clickToLevel => simp only [step]; split <;> rfl
  | clickBackRules => simp only [step]; split <;> rfl
  | clickToLevel2 => simp only [step]; split <;> rfl
  | clickWheel lvl res =>
      simp only [step]
      split
      · exact loadNextQuestion_fst_relationship _ _ _
      · rfl
  | clickSkip res =>
      simp only [step]
      split
      · exact loadNextQuestion_fst_relationship _ _ _
      · rfl
  | clickDone res =>
      simp only [step]
      split
      · exact loadNextQuestion_fst_relationship _ _ _
      · rfl

/-- C7 amended witness: the back-home click leaves the relationship
unchanged. -/
theorem non_start_steps_preserve_relationship_witness :
    (step initState .clickBackHome).1.relationship
      = initState.relationship :=
  non_start_steps_preserve_relationship initState .clickBackHome rfl

/-- C8: the service worker serves the cached response when the request is
in the cache and the live network response otherwise, and in neither case
writes anything to the cache. -/
theorem fetch_cache_first_no_write (cache : List (String × Response))
    (net : String → Response) (url : String) :
    (handleFetch cache net url).2 = cache ∧
    (∀ r, cacheMatch cache url = some r →
      (handleFetch cache net url).1 = r) ∧
    (cacheMatch cache url = none →
      (handleFetch cache net url).1 = net url) := by
  refine ⟨rfl, ?_, ?_⟩
  · intro r hr
    simp [handleFetch, hr]
  · intro h
    simp [handleFetch, h]

/-- C8 witness: a cache holding the shell serves it for "/" and falls
through to the network for an unknown path, the cache unchanged. -/
theorem fetch_cache_first_no_write_witness :
    (handleFetch [("/", ⟨"shell"⟩)] (fun _ => ⟨"net"⟩) "/").1
        = ⟨"shell"⟩ ∧
    (handleFetch [("/", ⟨"shell"⟩)] (fun _ => ⟨"net"⟩) "/x").1
        = ⟨"net"⟩ :=
  ⟨(fetch_cache_first_no_write [("/", ⟨"shell"⟩)] (fun _ => ⟨"net"⟩)
      "/").2.1 ⟨"shell"⟩ (by decide),
   (fetch_cache_first_no_write [("/", ⟨"shell"⟩)] (fun _ => ⟨"net"⟩)
      "/x").2.2 (by decide)⟩

/-- C9: `showPage` fails with a lookup error (the absent entry's
`classList` access) exactly on the keys outside the four known page keys,
and never fails on a known key. -/
theorem showPage_unknown_key_fails (key : String) (act : List String) :
    (key ∉ pageKeys → showPage key act = none) ∧
    (key ∈ pageKeys → (showPage key act).isSome = true) := by
  constructor
  · intro h
    simp [showPage, h]
  · intro h
    simp [showPage, h]

/-- C9 witness: an unknown key fails, a known key succeeds. -/
theorem showPage_unknown_key_fails_witness :
    showPage "settings" ["home"] = none ∧
    (showPage "home" ["home"]).isSome = true :=
  ⟨(showPage_unknown_key_fails "settings" ["home"]).1 (by decide),
   (showPage_unknown_key_fails "home" ["home"]).2 (by decide)⟩

/-- C10: when the question API call inside `loadNextQuestion` fails
(throws), the session history is unchanged: nothing is appended on the
error path. -/
theorem load_failure_history_unchanged (s : ClientState)
    (action : Option String) :
    (loadNextQuestion s action (.error ())).1.history = s.history := rfl

end LoveApp
